import Mathlib

/-!
Shallow embedding of `src/tb_control/tb_control/tb_openLoop.py`
(class `tb_openloop_node`): an open-loop velocity-profile generator.

Real numbers of the program are modelled as rationals.  The node's
mutable fields (`scenario`, `curr_speed`, `time_of_travel`, `started_at`)
become a `NodeState` record; `__init__` becomes `initNode`, returning the
ordered list of externally visible events it performs, and the
`timer_callback` method becomes a function from the state and the current
wall-clock time to the step's outcome (published velocity, new
`curr_speed`, whether the goal-reached early return was taken, and how
many `threading.Timer` reschedules were started).
-/

/-- Python's `int()` applied to a (finite) real: truncation toward zero.
Used because `timer_callback` reads `time_now = int(time.time())` in
scenario 1. -/
def pyInt (q : ℚ) : Int := if 0 ≤ q then ⌊q⌋ else ⌈q⌉

/-- A Python `ValueError`, the only exception the node raises
(`int()` / `float()` conversion failures and the explicit
`raise ValueError("Invalid option selected")`). -/
inductive PyError where
  | valueError (msg : String)
deriving DecidableEq, Repr

/-- Externally visible actions of `__init__`, in program order:
publishing a `Twist` with the given `linear.x` on `/cmd_vel`, recording
`self.started_at = time.time()`, and starting the thread that runs
`timer_callback`. -/
inductive Event where
  | publish (v : ℚ)
  | recordStart
  | startThread
deriving DecidableEq, Repr

/-- The fields of `tb_openloop_node` set in `__init__` and read or
mutated by `timer_callback`. -/
structure NodeState where
  scenario : Int
  curr_speed : ℚ
  time_of_travel : ℚ
  started_at : ℚ
deriving DecidableEq, Repr

/-- Outcome of one `timer_callback` invocation: the `linear.x` value
published, the value of `self.curr_speed` after the call, whether the
goal-reached early `return` was taken, and how many `threading.Timer`
objects were started. -/
structure StepOut where
  pub : ℚ
  curr : ℚ
  done : Bool
  timers : Nat
deriving DecidableEq, Repr

/-- `tb_openloop_node.__init__`.  `scenarioInput` is the result of
`int(input(...))` (`none` models the `ValueError` a non-numeric string
raises), `distanceInput` the result `float(distance)` would give
(`none` models its `ValueError`; in the source the conversion happens
inside the scenario branches, so an invalid scenario raises before the
distance is ever converted), `now` the value of `time.time()` at the end
of `__init__`.  On success it returns the ordered event list and the
node state.  Note: no branch checks the sign of the distance. -/
def initNode (scenarioInput : Option Int) (distanceInput : Option ℚ) (now : ℚ) :
    Except PyError (List Event × NodeState) :=
  match scenarioInput with
  | none => .error (.valueError "invalid literal for int")
  | some sc =>
    if sc = 1 then
      match distanceInput with
      | none => .error (.valueError "could not convert string to float")
      | some d =>
        .ok ([Event.publish 0, Event.recordStart, Event.startThread],
             { scenario := 1, curr_speed := 0.1, time_of_travel := d / 0.1,
               started_at := now })
    else if sc = 2 then
      match distanceInput with
      | none => .error (.valueError "could not convert string to float")
      | some d =>
        .ok ([Event.publish 0, Event.recordStart, Event.startThread],
             { scenario := 2, curr_speed := 0.0, time_of_travel := d / 0.165,
               started_at := now })
    else .error (.valueError "Invalid option selected")

/-- `tb_openloop_node.timer_callback`, as a function of the current state
and `time.time()`.

Scenario 1 compares the truncated clock `int(time.time())` with
`started_at + time_of_travel`; its terminal branch executes
`msg.linear.x = self.curr_speed = 0.0` and returns without rescheduling.

Scenario 2 compares the untruncated clock; its terminal branch sets the
local `next_speed = 0.0` but the statement `msg.linear.x - next_speed`
is a no-op expression, so the message keeps the `Twist()` default
`linear.x = 0.0` (hence `pub = 0`) and `self.curr_speed` is left
unchanged.  The non-terminal branches compute `next_speed` by phase,
then run `msg.linear.x = next_speed; self.curr_speed = next_speed`,
publish, and start one `threading.Timer(0.01, ...)`.

Any other scenario raises `ValueError` before publishing anything. -/
def timer_callback (s : NodeState) (now : ℚ) : Except PyError StepOut :=
  if s.scenario = 1 then
    if s.started_at + s.time_of_travel ≤ (pyInt now : ℚ) then
      .ok { pub := 0, curr := 0, done := true, timers := 0 }
    else
      .ok { pub := s.curr_speed, curr := s.curr_speed, done := false, timers := 1 }
  else if s.scenario = 2 then
    if s.started_at + s.time_of_travel ≤ now then
      .ok { pub := 0, curr := s.curr_speed, done := true, timers := 0 }
    else
      let next_speed : ℚ :=
        if now < s.started_at + s.time_of_travel / 4 then
          s.curr_speed + 0.0088 / s.time_of_travel
        else if now < s.started_at + s.time_of_travel * 3 / 4 then
          0.22
        else if now < s.started_at + s.time_of_travel then
          s.curr_speed - 0.0088 / s.time_of_travel
        else 0
      .ok { pub := next_speed, curr := next_speed, done := false, timers := 1 }
  else
    .error (.valueError "Invalid option selected")

/-- The `linear.x` values published to `/cmd_vel` during one
`timer_callback` invocation: each non-raising branch publishes exactly
once, and the `raise ValueError` branch publishes nothing before
raising. -/
def stepPublishes (s : NodeState) (now : ℚ) : List ℚ :=
  match timer_callback s now with
  | .ok o => [o.pub]
  | .error _ => []

/-- The state after one `timer_callback` invocation: only
`self.curr_speed` is mutated. -/
def applyStep (s : NodeState) (now : ℚ) : NodeState :=
  match timer_callback s now with
  | .ok o => { s with curr_speed := o.curr }
  | .error _ => s

/-- Outcomes of a sequence of `timer_callback` invocations at the given
clock times, threading the state through; stops if a call raises. -/
def runOutputs (s : NodeState) : List ℚ → List StepOut
  | [] => []
  | t :: ts =>
    match timer_callback s t with
    | .ok o => o :: runOutputs { s with curr_speed := o.curr } ts
    | .error _ => []

/-- Observation: the event list produced by an `__init__` result (empty
when `__init__` raised, since every raise in the source happens before
any publish, before `started_at` is recorded and before the thread is
started). -/
def initResultEvents : Except PyError (List Event × NodeState) → List Event
  | .ok p => p.1
  | .error _ => []

/-- Observation: the `time_of_travel` computed by an `__init__` result,
`none` when `__init__` raised. -/
def initResultTotalTime : Except PyError (List Event × NodeState) → Option ℚ
  | .ok p => some p.2.time_of_travel
  | .error _ => none

/-- Observation: how many `threading.Timer` objects a `timer_callback`
invocation starts (the `raise` branch starts none). -/
def stepTimers (s : NodeState) (now : ℚ) : Nat :=
  match timer_callback s now with
  | .ok o => o.timers
  | .error _ => 0

/-- Observation: whether a `timer_callback` invocation took the
goal-reached early `return`. -/
def stepDone (s : NodeState) (now : ℚ) : Bool :=
  match timer_callback s now with
  | .ok o => o.done
  | .error _ => false

/-! ### Basic lemmas about `pyInt` and the branches of `timer_callback`. -/

theorem pyInt_of_nonneg {q : ℚ} (h : 0 ≤ q) : pyInt q = ⌊q⌋ := if_pos h

theorem pyInt_le {q : ℚ} (h : 0 ≤ q) : (pyInt q : ℚ) ≤ q := by
  rw [pyInt_of_nonneg h]; exact Int.floor_le q

theorem pyInt_eq {q : ℚ} (n : ℤ) (h0 : 0 ≤ q) (h1 : (n : ℚ) ≤ q) (h2 : q < n + 1) :
    pyInt q = n := by
  rw [pyInt_of_nonneg h0]; exact Int.floor_eq_iff.mpr ⟨h1, h2⟩

theorem pyInt_mono {a b : ℚ} (h : a ≤ b) : pyInt a ≤ pyInt b := by
  unfold pyInt
  by_cases ha : 0 ≤ a
  · rw [if_pos ha, if_pos (le_trans ha h)]
    exact Int.floor_le_floor h
  · rw [if_neg ha]
    by_cases hb : 0 ≤ b
    · rw [if_pos hb]
      refine le_trans (Int.ceil_le.mpr ?_) (Int.floor_nonneg.mpr hb)
      exact_mod_cast le_of_not_le ha
    · rw [if_neg hb]
      exact Int.ceil_le_ceil h

theorem timer_callback_s1_terminal (s : NodeState) (now : ℚ) (h1 : s.scenario = 1)
    (h : s.started_at + s.time_of_travel ≤ (pyInt now : ℚ)) :
    timer_callback s now = .ok { pub := 0, curr := 0, done := true, timers := 0 } := by
  simp [timer_callback, h1, if_pos h]

theorem timer_callback_s1_run (s : NodeState) (now : ℚ) (h1 : s.scenario = 1)
    (h : ¬ s.started_at + s.time_of_travel ≤ (pyInt now : ℚ)) :
    timer_callback s now =
      .ok { pub := s.curr_speed, curr := s.curr_speed, done := false, timers := 1 } := by
  simp [timer_callback, h1, if_neg h]

theorem timer_callback_s2_terminal (s : NodeState) (now : ℚ) (h2 : s.scenario = 2)
    (h : s.started_at + s.time_of_travel ≤ now) :
    timer_callback s now =
      .ok { pub := 0, curr := s.curr_speed, done := true, timers := 0 } := by
  simp [timer_callback, h2, if_pos h]

theorem timer_callback_s2_accel (s : NodeState) (now : ℚ) (h2 : s.scenario = 2)
    (hT : 0 < s.time_of_travel) (h : now < s.started_at + s.time_of_travel / 4) :
    timer_callback s now =
      .ok { pub := s.curr_speed + 0.0088 / s.time_of_travel,
            curr := s.curr_speed + 0.0088 / s.time_of_travel, done := false, timers := 1 } := by
  have hnt : ¬ s.started_at + s.time_of_travel ≤ now := by nlinarith
  simp [timer_callback, h2, if_neg hnt, if_pos h]

theorem timer_callback_s2_cruise (s : NodeState) (now : ℚ) (h2 : s.scenario = 2)
    (hlo : s.started_at + s.time_of_travel / 4 ≤ now)
    (hhi : now < s.started_at + s.time_of_travel * 3 / 4) :
    timer_callback s now =
      .ok { pub := 0.22, curr := 0.22, done := false, timers := 1 } := by
  have hT : 0 < s.time_of_travel := by linarith
  have hnt : ¬ s.started_at + s.time_of_travel ≤ now := by nlinarith
  have hna : ¬ now < s.started_at + s.time_of_travel / 4 := by linarith
  simp [timer_callback, h2, if_neg hnt, if_neg hna, if_pos hhi]

theorem timer_callback_s2_decel (s : NodeState) (now : ℚ) (h2 : s.scenario = 2)
    (hlo : s.started_at + s.time_of_travel * 3 / 4 ≤ now)
    (hhi : now < s.started_at + s.time_of_travel) :
    timer_callback s now =
      .ok { pub := s.curr_speed - 0.0088 / s.time_of_travel,
            curr := s.curr_speed - 0.0088 / s.time_of_travel, done := false, timers := 1 } := by
  have hT : 0 < s.time_of_travel := by linarith
  have hnt : ¬ s.started_at + s.time_of_travel ≤ now := by linarith
  have hna : ¬ now < s.started_at + s.time_of_travel / 4 := by nlinarith
  have hnc : ¬ now < s.started_at + s.time_of_travel * 3 / 4 := by linarith
  simp [timer_callback, h2, if_neg hnt, if_neg hna, if_neg hnc, if_pos hhi]

theorem timer_callback_other (s : NodeState) (now : ℚ) (h1 : s.scenario ≠ 1)
    (h2 : s.scenario ≠ 2) :
    timer_callback s now = .error (.valueError "Invalid option selected") := by
  simp [timer_callback, h1, h2]

/-! ### Claims -/

/-- C1 counterexample.  The claim as stated fails twice.  (a) Constant
profile: with `started_at = 1/2`, `time_of_travel = 10` and
`now = 53/5`, the elapsed time `101/10` is ≥ `10`, yet the step returns
`(0.1, false)` and reschedules, because the code compares the truncated
clock `int(time.time()) = 10` with `10.5`.  (b) Trapezoidal profile: at
a terminal step the stored `curr_speed` is left at `0.1`, not set to
`0`. -/
theorem C1_counterexample :
    ((53 / 5 : ℚ) - 1 / 2 ≥ 10 ∧
      timer_callback
          { scenario := 1, curr_speed := 0.1, time_of_travel := 10, started_at := 1 / 2 }
          (53 / 5) =
        .ok { pub := 0.1, curr := 0.1, done := false, timers := 1 }) ∧
    ((4 : ℚ) - 0 ≥ 4 ∧
      timer_callback
          { scenario := 2, curr_speed := 0.1, time_of_travel := 4, started_at := 0 } 4 =
        .ok { pub := 0, curr := 0.1, done := true, timers := 0 } ∧
      (0.1 : ℚ) ≠ 0) := by
  have hp : pyInt (53 / 5) = 10 := pyInt_eq 10 (by norm_num) (by norm_num) (by norm_num)
  refine ⟨⟨by norm_num, ?_⟩, by norm_num, ?_, by norm_num⟩
  · refine timer_callback_s1_run _ _ rfl ?_
    rw [hp]
    norm_num
  · exact timer_callback_s2_terminal _ _ rfl (by norm_num)

/-- C1 (amended): on a terminal step both profiles return `(0, true)`,
schedule no further tick, and every subsequent call (on the updated
state, at any later clock value) again returns `(0, true)`; but the
Constant profile detects the terminal state by comparing the truncated
clock `int(time.time())` with `startTime + totalTime` (not the elapsed
time itself), and the Trapezoidal terminal branch leaves
`curr_speed` unchanged instead of setting it to `0` (the published
command is `0` only because the fresh `Twist` message keeps its default
`linear.x = 0.0`; the statement `msg.linear.x - next_speed` has no
effect). -/
theorem C1_terminal_behavior (s : NodeState) (now nowLater : ℚ) (hle : now ≤ nowLater) :
    (s.scenario = 1 → s.started_at + s.time_of_travel ≤ (pyInt now : ℚ) →
      timer_callback s now = .ok { pub := 0, curr := 0, done := true, timers := 0 } ∧
      timer_callback (applyStep s now) nowLater =
        .ok { pub := 0, curr := 0, done := true, timers := 0 }) ∧
    (s.scenario = 2 → s.started_at + s.time_of_travel ≤ now →
      timer_callback s now = .ok { pub := 0, curr := s.curr_speed, done := true, timers := 0 } ∧
      timer_callback (applyStep s now) nowLater =
        .ok { pub := 0, curr := s.curr_speed, done := true, timers := 0 }) := by
  constructor
  · intro h1 ht
    have hnow := timer_callback_s1_terminal s now h1 ht
    have hs : applyStep s now = { s with curr_speed := 0 } := by
      simp [applyStep, hnow]
    have hmono : (pyInt now : ℚ) ≤ (pyInt nowLater : ℚ) := by
      exact_mod_cast pyInt_mono hle
    refine ⟨hnow, ?_⟩
    rw [hs]
    exact timer_callback_s1_terminal _ _ h1 (le_trans ht hmono)
  · intro h2 ht
    have hnow := timer_callback_s2_terminal s now h2 ht
    have hs : applyStep s now = { s with curr_speed := s.curr_speed } := by
      simp [applyStep, hnow]
    refine ⟨hnow, ?_⟩
    rw [hs]
    exact timer_callback_s2_terminal _ _ h2 (le_trans ht hle)

/-- C1 witness: a concrete Constant-profile terminal step and its
successor. -/
theorem C1_terminal_behavior_witness :
    timer_callback { scenario := 1, curr_speed := 0.1, time_of_travel := 10, started_at := 0 }
        10 =
      .ok { pub := 0, curr := 0, done := true, timers := 0 } ∧
    timer_callback
        (applyStep { scenario := 1, curr_speed := 0.1, time_of_travel := 10, started_at := 0 }
          10) 11 =
      .ok { pub := 0, curr := 0, done := true, timers := 0 } :=
  (C1_terminal_behavior _ 10 11 (by norm_num)).1 rfl
    (by
      have hp : pyInt (10 : ℚ) = 10 := pyInt_eq 10 (by norm_num) (by norm_num) (by norm_num)
      rw [hp]
      norm_num)

/-- C2 counterexample: `distance = 0 ≤ 0` is accepted — `__init__`
returns successfully, producing a plan with `time_of_travel = 0` and
starting the run, instead of failing with an error. -/
theorem C2_counterexample :
    (0 : ℚ) ≤ 0 ∧
    initNode (some 1) (some 0) 0 =
      .ok ([Event.publish 0, Event.recordStart, Event.startThread],
           { scenario := 1, curr_speed := 0.1, time_of_travel := 0, started_at := 0 }) := by
  refine ⟨le_refl 0, ?_⟩
  simp [initNode]

/-- C2 (amended): a non-numeric profile selection, and a non-numeric
distance under either recognized profile, raise `ValueError` before any
publish, before `started_at` is recorded and before the tick thread is
started; but a non-positive distance is NOT rejected: `__init__`
succeeds, the degenerate plan has `time_of_travel ≤ 0`, and the run
begins (the tick thread is started). -/
theorem C2_validation (dOpt : Option ℚ) (d now : ℚ) (k : Int)
    (hk : k = 1 ∨ k = 2) (hd : d ≤ 0) :
    initNode none dOpt now = .error (.valueError "invalid literal for int") ∧
    initNode (some k) none now = .error (.valueError "could not convert string to float") ∧
    initResultEvents (initNode (some k) (some d) now) =
      [Event.publish 0, Event.recordStart, Event.startThread] ∧
    (initResultTotalTime (initNode (some k) (some d) now)).getD 1 ≤ 0 := by
  rcases hk with h | h <;> subst h <;>
    refine ⟨rfl, rfl, rfl, ?_⟩ <;>
    · show _ / _ ≤ (0 : ℚ)
      exact div_nonpos_iff.mpr (Or.inr ⟨hd, by norm_num⟩)

/-- C2 witness: concrete instances of the amended validation facts at
`k = 1`, `d = 0`. -/
theorem C2_validation_witness :
    initNode none (some 5) 0 = .error (.valueError "invalid literal for int") ∧
    initNode (some 1) none 0 = .error (.valueError "could not convert string to float") ∧
    initResultEvents (initNode (some 1) (some 0) 0) =
      [Event.publish 0, Event.recordStart, Event.startThread] ∧
    (initResultTotalTime (initNode (some 1) (some 0) 0)).getD 1 ≤ 0 :=
  C2_validation (some 5) 0 0 1 (Or.inl rfl) (le_refl 0)

/-- C3 counterexample: in the deceleration window (`time_of_travel = 4`,
`started_at = 0`, `now = 7/2 ∈ [3, 4)`) with `curr_speed = 0.001`, the
step returns `0.001 - 0.0088/4 = -0.0012 < 0`: no floor at `0` is
applied and the commanded velocity can be negative. -/
theorem C3_counterexample :
    ((0 : ℚ) + 4 * 3 / 4 ≤ 7 / 2 ∧ (7 / 2 : ℚ) < 0 + 4) ∧
    timer_callback
        { scenario := 2, curr_speed := 0.001, time_of_travel := 4, started_at := 0 }
        (7 / 2) =
      .ok { pub := -0.0012, curr := -0.0012, done := false, timers := 1 } ∧
    (-0.0012 : ℚ) < 0 := by
  refine ⟨⟨by norm_num, by norm_num⟩, ?_, by norm_num⟩
  have h := timer_callback_s2_decel
      { scenario := 2, curr_speed := 0.001, time_of_travel := 4, started_at := 0 } (7 / 2)
      rfl (by norm_num) (by norm_num)
  rw [h]
  norm_num

/-- C3 (amended): for every Trapezoidal step with elapsed time in
`[totalTime*3/4, totalTime)` the new velocity equals
`curr_speed - 0.0088 / totalTime`, with NO floor at `0` (it can become
negative); since the decrement is strictly positive the commanded
velocity does strictly decrease (hence is monotonically non-increasing)
over the interval. -/
theorem C3_decel_phase (s : NodeState) (now : ℚ) (h2 : s.scenario = 2)
    (hlo : s.started_at + s.time_of_travel * 3 / 4 ≤ now)
    (hhi : now < s.started_at + s.time_of_travel) :
    timer_callback s now =
      .ok { pub := s.curr_speed - 0.0088 / s.time_of_travel,
            curr := s.curr_speed - 0.0088 / s.time_of_travel, done := false, timers := 1 } ∧
    s.curr_speed - 0.0088 / s.time_of_travel < s.curr_speed := by
  have hT : 0 < s.time_of_travel := by linarith
  have hpos : (0 : ℚ) < 0.0088 / s.time_of_travel := div_pos (by norm_num) hT
  exact ⟨timer_callback_s2_decel s now h2 hlo hhi, by linarith⟩

/-- C3 witness: a concrete deceleration step from cruise speed. -/
theorem C3_decel_phase_witness :
    timer_callback
        { scenario := 2, curr_speed := 0.22, time_of_travel := 4, started_at := 0 }
        (7 / 2) =
      .ok { pub := 0.22 - 0.0088 / 4, curr := 0.22 - 0.0088 / 4, done := false, timers := 1 } ∧
    (0.22 : ℚ) - 0.0088 / 4 < 0.22 :=
  C3_decel_phase _ _ rfl (by norm_num) (by norm_num)

/-- C4 (confirmed): the planner computes
`totalTime = distance / effectiveAverageVelocity`: `distance / 0.1` for
the Constant profile (scenario 1) and `distance / 0.165` for the
Trapezoidal profile (scenario 2), where `0.165 = 0.75 * 0.22`; in
particular `distance = 1.0` with the Constant profile gives
`totalTime = 10`. -/
theorem C4_totalTime (d now : ℚ) (hd : 0 < d) :
    initResultTotalTime (initNode (some 1) (some d) now) = some (d / 0.1) ∧
    initResultTotalTime (initNode (some 2) (some d) now) = some (d / 0.165) ∧
    (0.165 : ℚ) = 0.75 * 0.22 ∧
    initResultTotalTime (initNode (some 1) (some 1) 0) = some 10 := by
  refine ⟨rfl, rfl, by norm_num, ?_⟩
  show some ((1 : ℚ) / 0.1) = some 10
  norm_num

/-- C4 witness: the planner invariant at `distance = 1`. -/
theorem C4_totalTime_witness :
    initResultTotalTime (initNode (some 1) (some 1) 0) = some (1 / 0.1) ∧
    initResultTotalTime (initNode (some 2) (some 1) 0) = some (1 / 0.165) ∧
    (0.165 : ℚ) = 0.75 * 0.22 ∧
    initResultTotalTime (initNode (some 1) (some 1) 0) = some 10 :=
  C4_totalTime 1 0 (by norm_num)

/-- Helper for C5: under scenario 1, as long as every tick's clock value
is nonnegative and its elapsed time is below `time_of_travel`, each tick
returns the current (unchanged) speed with `done = false` and one
reschedule. -/
theorem runOutputs_const_invariant (t0 T v : ℚ) (times : List ℚ) :
    ∀ s : NodeState, s.scenario = 1 → s.curr_speed = v →
      s.started_at = t0 → s.time_of_travel = T →
      (∀ t ∈ times, 0 ≤ t ∧ t - t0 < T) →
      runOutputs s times =
        times.map fun _ => { pub := v, curr := v, done := false, timers := 1 } := by
  induction times with
  | nil => intro s _ _ _ _ _; rfl
  | cons t ts ih =>
    intro s h1 hv hst hT hts
    have h0 : 0 ≤ t := (hts t (List.mem_cons_self t ts)).1
    have hlt : t - t0 < T := (hts t (List.mem_cons_self t ts)).2
    have hnt : ¬ s.started_at + s.time_of_travel ≤ (pyInt t : ℚ) := by
      rw [hst, hT]
      intro hcon
      have hle2 : (pyInt t : ℚ) ≤ t := pyInt_le h0
      linarith
    have hstep := timer_callback_s1_run s t h1 hnt
    have htail := ih { s with curr_speed := v } h1 rfl hst hT
      fun u hu => hts u (List.mem_cons_of_mem t hu)
    simp only [runOutputs, hstep, List.map_cons]
    rw [hv]
    exact congrArg (List.cons _) htail

/-- C5 (confirmed): for any Constant-profile run, every sequence of tick
invocations whose (nonnegative) clock values all have elapsed time below
`totalTime = distance / 0.1` returns velocity exactly `0.1` with
`done = false` on every tick, with `curr_speed` unchanged from the start
of the run. -/
theorem C5_constant_running (d t0 : ℚ) (hd : 0 < d) (times : List ℚ)
    (hts : ∀ t ∈ times, 0 ≤ t ∧ t - t0 < d / 0.1) :
    initNode (some 1) (some d) t0 =
      .ok ([Event.publish 0, Event.recordStart, Event.startThread],
           { scenario := 1, curr_speed := 0.1, time_of_travel := d / 0.1,
             started_at := t0 }) ∧
    runOutputs
        { scenario := 1, curr_speed := 0.1, time_of_travel := d / 0.1, started_at := t0 }
        times =
      times.map fun _ => { pub := 0.1, curr := 0.1, done := false, timers := 1 } := by
  exact ⟨rfl, runOutputs_const_invariant t0 (d / 0.1) 0.1 times _ rfl rfl rfl rfl hts⟩

/-- C5 witness: a run with `distance = 1` (so `totalTime = 10`), stepped
at clock values `0` and `5`. -/
theorem C5_constant_running_witness :
    initNode (some 1) (some 1) 0 =
      .ok ([Event.publish 0, Event.recordStart, Event.startThread],
           { scenario := 1, curr_speed := 0.1, time_of_travel := 1 / 0.1,
             started_at := 0 }) ∧
    runOutputs
        { scenario := 1, curr_speed := 0.1, time_of_travel := 1 / 0.1, started_at := 0 }
        [0, 5] =
      [{ pub := 0.1, curr := 0.1, done := false, timers := 1 },
       { pub := 0.1, curr := 0.1, done := false, timers := 1 }] := by
  have h := C5_constant_running 1 0 (by norm_num) [0, 5]
    (by
      intro t ht
      simp only [List.mem_cons, List.not_mem_nil, or_false] at ht
      rcases ht with rfl | rfl <;> norm_num)
  simpa using h

/-- C6 (confirmed): for every Trapezoidal step with elapsed time
strictly below `totalTime / 4`, the new velocity equals
`curr_speed + 0.0088 / totalTime`, with no upper clamp applied (the
formula is exact whatever `curr_speed` is, even above `0.22`), and the
commanded velocity strictly increases (hence is monotonically
non-decreasing) over the phase. -/
theorem C6_accel_phase (s : NodeState) (now : ℚ) (h2 : s.scenario = 2)
    (hT : 0 < s.time_of_travel) (h : now - s.started_at < s.time_of_travel / 4) :
    timer_callback s now =
      .ok { pub := s.curr_speed + 0.0088 / s.time_of_travel,
            curr := s.curr_speed + 0.0088 / s.time_of_travel, done := false, timers := 1 } ∧
    s.curr_speed < s.curr_speed + 0.0088 / s.time_of_travel := by
  have hpos : (0 : ℚ) < 0.0088 / s.time_of_travel := div_pos (by norm_num) hT
  exact ⟨timer_callback_s2_accel s now h2 hT (by linarith), by linarith⟩

/-- C6 witness: an acceleration step starting already at `0.22`
overshoots to `0.22 + 0.0088/4 > 0.22` — no clamp. -/
theorem C6_accel_phase_witness :
    timer_callback
        { scenario := 2, curr_speed := 0.22, time_of_travel := 4, started_at := 0 }
        (1 / 2) =
      .ok { pub := 0.22 + 0.0088 / 4, curr := 0.22 + 0.0088 / 4, done := false, timers := 1 } ∧
    (0.22 : ℚ) < 0.22 + 0.0088 / 4 :=
  C6_accel_phase _ _ rfl (by norm_num) (by norm_num)

/-- C7 (confirmed): for every Trapezoidal step with elapsed time in
`[totalTime/4, totalTime*3/4)`, the published velocity is exactly `0.22`
(the fixed max velocity) and the stored `curr_speed` is set to `0.22`,
whatever its value on entry to the phase. -/
theorem C7_cruise_phase (s : NodeState) (now : ℚ) (h2 : s.scenario = 2)
    (hlo : s.time_of_travel / 4 ≤ now - s.started_at)
    (hhi : now - s.started_at < s.time_of_travel * 3 / 4) :
    timer_callback s now = .ok { pub := 0.22, curr := 0.22, done := false, timers := 1 } :=
  timer_callback_s2_cruise s now h2 (by linarith) (by linarith)

/-- C7 witness: a cruise step entered with `curr_speed = 0.05` still
publishes and stores `0.22`. -/
theorem C7_cruise_phase_witness :
    timer_callback
        { scenario := 2, curr_speed := 0.05, time_of_travel := 4, started_at := 0 } 2 =
      .ok { pub := 0.22, curr := 0.22, done := false, timers := 1 } :=
  C7_cruise_phase _ _ rfl (by norm_num) (by norm_num)

/-- C8 counterexample: with an unrecognized scenario the callback raises
`ValueError` but publishes NOTHING before raising — no zero-velocity
command is sent to the sink, contradicting the fail-closed part of the
claim. -/
theorem C8_counterexample :
    timer_callback { scenario := 3, curr_speed := 0, time_of_travel := 1, started_at := 0 }
        0 =
      .error (.valueError "Invalid option selected") ∧
    stepPublishes { scenario := 3, curr_speed := 0, time_of_travel := 1, started_at := 0 }
        0 =
      [] := by
  have h := timer_callback_other
      { scenario := 3, curr_speed := 0, time_of_travel := 1, started_at := 0 } 0
      (by decide) (by decide)
  exact ⟨h, by simp [stepPublishes, h]⟩

/-- C8 (amended): for every state whose scenario is not `1` or `2` the
callback raises `ValueError ("Invalid option selected")`, fatal to the
run, but it does NOT command zero velocity before terminating (it
publishes nothing on that path); moreover such a run can never start,
since `__init__` raises the same error for any unrecognized selection
before scheduling anything. -/
theorem C8_unsupported_profile (s : NodeState) (now : ℚ) (dOpt : Option ℚ) (nowI : ℚ)
    (h1 : s.scenario ≠ 1) (h2 : s.scenario ≠ 2) :
    timer_callback s now = .error (.valueError "Invalid option selected") ∧
    stepPublishes s now = [] ∧
    initNode (some s.scenario) dOpt nowI = .error (.valueError "Invalid option selected") := by
  have h := timer_callback_other s now h1 h2
  refine ⟨h, by simp [stepPublishes, h], ?_⟩
  simp [initNode, h1, h2]

/-- C8 witness: the unsupported scenario `3`. -/
theorem C8_unsupported_profile_witness :
    timer_callback { scenario := 3, curr_speed := 0, time_of_travel := 1, started_at := 5 }
        2 =
      .error (.valueError "Invalid option selected") ∧
    stepPublishes { scenario := 3, curr_speed := 0, time_of_travel := 1, started_at := 5 }
        2 =
      [] ∧
    initNode (some (3 : Int)) (some 1) 0 = .error (.valueError "Invalid option selected") :=
  C8_unsupported_profile _ 2 (some 1) 0 (by decide) (by decide)

/-- C9 (confirmed): every callback invocation (either profile) starts at
most one `threading.Timer`; exactly one when it is not terminal; a
terminal invocation starts none, and any later invocation on the updated
state is again terminal and starts none. -/
theorem C9_tick_scheduling (s : NodeState) (now nowLater : ℚ)
    (hk : s.scenario = 1 ∨ s.scenario = 2) (hle : now ≤ nowLater) :
    stepTimers s now ≤ 1 ∧
    (stepDone s now = false → stepTimers s now = 1) ∧
    (stepDone s now = true →
      stepTimers s now = 0 ∧ stepTimers (applyStep s now) nowLater = 0 ∧
      stepDone (applyStep s now) nowLater = true) := by
  rcases hk with h1 | h2
  · by_cases ht : s.started_at + s.time_of_travel ≤ (pyInt now : ℚ)
    · have hnow := timer_callback_s1_terminal s now h1 ht
      have hs : applyStep s now = { s with curr_speed := 0 } := by
        simp [applyStep, hnow]
      have hmono : (pyInt now : ℚ) ≤ (pyInt nowLater : ℚ) := by
        exact_mod_cast pyInt_mono hle
      have hlater := timer_callback_s1_terminal { s with curr_speed := 0 } nowLater h1
        (le_trans ht hmono)
      simp [stepTimers, stepDone, hnow, hs, hlater]
    · have hnow := timer_callback_s1_run s now h1 ht
      simp [stepTimers, stepDone, hnow]
  · by_cases ht : s.started_at + s.time_of_travel ≤ now
    · have hnow := timer_callback_s2_terminal s now h2 ht
      have hs : applyStep s now = s := by
        simp [applyStep, hnow]
      have hlater := timer_callback_s2_terminal s nowLater h2 (le_trans ht hle)
      simp [stepTimers, stepDone, hnow, hs, hlater]
    · simp [stepTimers, stepDone, timer_callback, h2, ht]

/-- C9 witness: a concrete terminal Constant-profile invocation and its
successor. -/
theorem C9_tick_scheduling_witness :
    stepTimers { scenario := 1, curr_speed := 0.1, time_of_travel := 10, started_at := 0 }
        10 ≤ 1 ∧
    (stepTimers { scenario := 1, curr_speed := 0.1, time_of_travel := 10, started_at := 0 }
        10 = 0 ∧
      stepTimers
        (applyStep { scenario := 1, curr_speed := 0.1, time_of_travel := 10, started_at := 0 }
          10) 11 = 0 ∧
      stepDone
        (applyStep { scenario := 1, curr_speed := 0.1, time_of_travel := 10, started_at := 0 }
          10) 11 = true) :=
  ⟨(C9_tick_scheduling _ 10 11 (Or.inl rfl) (by norm_num)).1,
    (C9_tick_scheduling _ 10 11 (Or.inl rfl) (by norm_num)).2.2
      (by
        have hp : pyInt (10 : ℚ) = 10 := pyInt_eq 10 (by norm_num) (by norm_num) (by norm_num)
        have h := timer_callback_s1_terminal
          { scenario := 1, curr_speed := 0.1, time_of_travel := 10, started_at := 0 } 10 rfl
          (by rw [hp]; norm_num)
        simp [stepDone, h])⟩

/-- C10 (confirmed): for either recognized scenario and any parseable
distance, `__init__` publishes exactly one command, with linear velocity
`0`, and does so before `started_at` is recorded and before the tick
thread is started. -/
theorem C10_init_zero_publish (k : Int) (hk : k = 1 ∨ k = 2) (d now : ℚ) :
    initResultEvents (initNode (some k) (some d) now) =
      [Event.publish 0, Event.recordStart, Event.startThread] := by
  rcases hk with h | h <;> subst h <;> rfl

/-- C10 witness: scenario 2 with distance 1. -/
theorem C10_init_zero_publish_witness :
    initResultEvents (initNode (some 2) (some 1) 0) =
      [Event.publish 0, Event.recordStart, Event.startThread] :=
  C10_init_zero_publish 2 (Or.inr rfl) 1 0
